import Mathlib

/-!
Verification of `solo/utils/ffcv_pretrain_dataloader.py` (solo-learn).

The module composes external augmentation primitives; its own logic is list
concatenation, repetition (N-crop) and parameter forwarding.  We embed it
shallowly: a stochastic transform is a function consuming an image and the
global random state and returning an output together with the updated state;
external pipeline steps (decoders, color jitter, normalization, ...) are inert
constructors carrying exactly the arguments the Python code passes them;
filesystem listing and image opening are passed in explicitly as functions.
-/

/-- A single-output transform callable: takes an image and the global random
state, returns one output and the updated state.  Models one call of a
(possibly stochastic) `transform` in `NCropAugmentation.__call__`. -/
abbrev Transform (Img Out RNG : Type) : Type := Img → RNG → Out × RNG

/-- A list-valued transform callable, the element shape stored in
`FullTransformPipeline.transforms`. -/
abbrev ListTransform (Img Out RNG : Type) : Type := Img → RNG → List Out × RNG

/-- Embeds the list comprehension `[self.transform(x) for _ in range(self.num_crops)]`
of `NCropAugmentation.__call__`: `n` successive applications of `t` to the same
image `x`, threading the global random state left to right. -/
def applyN {Img Out RNG : Type} (t : Transform Img Out RNG) :
    Nat → Img → RNG → List Out × RNG
  | 0, _, s => ([], s)
  | Nat.succ n, x, s =>
    let r := t x s
    let rest := applyN t n x r.2
    (r.1 :: rest.1, rest.2)

/-- Embeds class `NCropAugmentation`: a stored transform and a crop count. -/
structure NCropAugmentation (Img Out RNG : Type) where
  transform : Transform Img Out RNG
  num_crops : Nat

/-- Embeds `NCropAugmentation.__call__`. -/
def NCropAugmentation.call {Img Out RNG : Type} (a : NCropAugmentation Img Out RNG)
    (x : Img) (s : RNG) : List Out × RNG :=
  applyN a.transform a.num_crops x s

/-- State of the global RNG right before the `i`-th (0-based) application of `t`
to `x`, when the first application starts from state `s`. -/
def chainState {Img Out RNG : Type} (t : Transform Img Out RNG) (x : Img) (s : RNG) :
    Nat → RNG
  | 0 => s
  | Nat.succ i => (t x (chainState t x s i)).2

/-- Embeds class `FullTransformPipeline`: a list of list-valued callables. -/
structure FullTransformPipeline (Img Out RNG : Type) where
  transforms : List (ListTransform Img Out RNG)

/-- Embeds the loop body of `FullTransformPipeline.__call__`:
`out = []; for transform in self.transforms: out.extend(transform(x))`,
threading the global random state through the calls in order. -/
def callList {Img Out RNG : Type} :
    List (ListTransform Img Out RNG) → Img → RNG → List Out × RNG
  | [], _, s => ([], s)
  | t :: ts, x, s =>
    let r := t x s
    let rest := callList ts x r.2
    (r.1 ++ rest.1, rest.2)

/-- Embeds `FullTransformPipeline.__call__`. -/
def FullTransformPipeline.call {Img Out RNG : Type} (p : FullTransformPipeline Img Out RNG)
    (x : Img) (s : RNG) : List Out × RNG :=
  callList p.transforms x s

/-- Embeds `prepare_n_crop_transform`: asserts the two lists have equal length
(`none` models the failed assertion), zips them, wraps each pair in an
`NCropAugmentation` and collects the wrappers in a `FullTransformPipeline`. -/
def prepare_n_crop_transform {Img Out RNG : Type} (transforms : List (Transform Img Out RNG))
    (num_crops_per_aug : List Nat) : Option (FullTransformPipeline Img Out RNG) :=
  if transforms.length = num_crops_per_aug.length then
    some ⟨(transforms.zip num_crops_per_aug).map
      (fun p => (NCropAugmentation.mk p.1 p.2).call)⟩
  else
    none

/-- Spec-side reading of the N-crop pipeline result: the concatenation, in
order, of the outputs of `NCropAugmentation(T[i], N[i])` applied to `x`,
threading the global random state from one wrapper to the next. -/
def concatNCropOutputs {Img Out RNG : Type} :
    List (Transform Img Out RNG × Nat) → Img → RNG → List Out × RNG
  | [], _, s => ([], s)
  | p :: ps, x, s =>
    let r := (NCropAugmentation.mk p.1 p.2).call x s
    let rest := concatNCropOutputs ps x r.2
    (r.1 ++ rest.1, rest.2)

/-- The numpy dtype passed to `NormalizeImage` (always `np.float16` here). -/
inductive NpDType where
  | float16

deriving instance DecidableEq for NpDType

/-- One step of an ffcv/torchvision pipeline, as an inert constructor carrying
exactly the arguments the Python code passes to the external primitive.
Float arguments are modelled as rationals; they are only forwarded, never
computed with. -/
inductive PipelineStep where
  | randomResizedCropRGBImageDecoder (output_size : Nat × Nat) (scale : Rat × Rat)
  | randomApplyColorJitter (brightness contrast saturation hue p : Rat)
  | randomGrayscale (p : Rat)
  | randomApplyGaussianBlur (p : Rat)
  | randomApplySolarization (p : Rat)
  | randomHorizontalFlip (flip_prob : Rat)
  | toTensor
  | toDevice (device : Int) (non_blocking : Bool)
  | toTorchImage
  | normalizeImage (mean : Rat × Rat × Rat) (std : Rat × Rat × Rat) (dtype : NpDType)
  | intDecoder
  | squeeze

deriving instance DecidableEq for PipelineStep

/-- Identity of a pipeline step with its arguments erased. -/
inductive StepTag where
  | randomResizedCropRGBImageDecoder
  | randomApplyColorJitter
  | randomGrayscale
  | randomApplyGaussianBlur
  | randomApplySolarization
  | randomHorizontalFlip
  | toTensor
  | toDevice
  | toTorchImage
  | normalizeImage
  | intDecoder
  | squeeze

deriving instance DecidableEq for StepTag

/-- Erases a pipeline step to its identity tag. -/
def PipelineStep.tag : PipelineStep → StepTag
  | .randomResizedCropRGBImageDecoder _ _ => .randomResizedCropRGBImageDecoder
  | .randomApplyColorJitter _ _ _ _ _ => .randomApplyColorJitter
  | .randomGrayscale _ => .randomGrayscale
  | .randomApplyGaussianBlur _ => .randomApplyGaussianBlur
  | .randomApplySolarization _ => .randomApplySolarization
  | .randomHorizontalFlip _ => .randomHorizontalFlip
  | .toTensor => .toTensor
  | .toDevice _ _ => .toDevice
  | .toTorchImage => .toTorchImage
  | .normalizeImage _ _ _ => .normalizeImage
  | .intDecoder => .intDecoder
  | .squeeze => .squeeze

/-- The keyword arguments of `imagenet_pipelines` (floats as rationals). -/
structure ImagenetPipelinesArgs where
  brightness : Rat
  contrast : Rat
  saturation : Rat
  hue : Rat
  color_jitter_prob : Rat
  gray_scale_prob : Rat
  horizontal_flip_prob : Rat
  gaussian_prob : Rat
  solarization_prob : Rat
  min_scale : Rat
  max_scale : Rat
  crop_size : Nat
  device : Int

deriving instance DecidableEq for ImagenetPipelinesArgs

/-- Embeds `imagenet_pipelines`: the dict `{"image": image_pipeline, "label":
label_pipeline}` is modelled as an association list, each pipeline as the fixed
list of steps the Python code builds, with the arguments forwarded verbatim. -/
def imagenet_pipelines (a : ImagenetPipelinesArgs) : List (String × List PipelineStep) :=
  [ ("image",
     [ .randomResizedCropRGBImageDecoder (a.crop_size, a.crop_size) (a.min_scale, a.max_scale),
       .randomApplyColorJitter a.brightness a.contrast a.saturation a.hue a.color_jitter_prob,
       .randomGrayscale a.gray_scale_prob,
       .randomApplyGaussianBlur a.gaussian_prob,
       .randomApplySolarization a.solarization_prob,
       .randomHorizontalFlip a.horizontal_flip_prob,
       .toTensor,
       .toDevice a.device true,
       .toTorchImage,
       .normalizeImage (485/1000, 456/1000, 406/1000) (228/1000, 224/1000, 225/1000)
         NpDType.float16 ]),
    ("label",
     [ .intDecoder, .toTensor, .squeeze, .toDevice a.device true ]) ]

/-- Embeds `prepare_transform`: dispatches on the dataset name, `Except.error`
modelling the raised `ValueError`. -/
def prepare_transform (dataset : String) (kwargs : ImagenetPipelinesArgs) :
    Except String (List (String × List PipelineStep)) :=
  if dataset ∈ (["imagenet", "imagenet100"] : List String) then
    Except.ok (imagenet_pipelines kwargs)
  else
    Except.error (dataset ++ " is not currently supported.")

/-- Embeds `ffcv.loader.OrderOption`. -/
inductive OrderOption where
  | RANDOM
  | QUASI_RANDOM
  | SEQUENTIAL

deriving instance DecidableEq for OrderOption

/-- The arguments `prepare_dataloader` hands to the external `Loader`
constructor; the constructor itself is external, so the record is inert. -/
structure LoaderArgs (P : Type) where
  fname : String
  batch_size : Nat
  num_workers : Nat
  order : OrderOption
  os_cache : Bool
  drop_last : Bool
  pipelines : P
  distributed : Bool

/-- Embeds `prepare_dataloader`: chooses the order option from `distributed`
and builds the `Loader` argument record. -/
def prepare_dataloader {P : Type} (train_ffcv_dataset : String) (pipelines : P)
    (batch_size : Nat) (num_workers : Nat) (distributed : Bool) (fit_mem : Bool) :
    LoaderArgs P :=
  let order := if distributed then OrderOption.RANDOM else OrderOption.QUASI_RANDOM
  ⟨train_ffcv_dataset, batch_size, num_workers, order, fit_mem, true, pipelines,
   distributed⟩

/-- Embeds `DatasetWithIndex.__getitem__` from `dataset_with_index`: the
wrapped dataset's item is a tuple, modelled as a list of dynamic values `V`;
the splat `(index, *data)` prepends the index, injected into `V` by `inj`. -/
def dataset_with_index_getitem {V : Type} (getitem : Nat → List V) (inj : Nat → V)
    (index : Nat) : List V :=
  inj index :: getitem index

/-- Embeds the state of a `CustomDatasetWithoutLabels` instance. -/
structure CustomDatasetWithoutLabels (Img : Type) where
  root : String
  transform : Option (Img → Img)
  images : List String

/-- Embeds `CustomDatasetWithoutLabels.__init__`: stores the root, the optional
transform, and `os.listdir(root)`; the filesystem listing is passed in
explicitly as `listdir`. -/
def CustomDatasetWithoutLabels.init {Img : Type} (listdir : String → List String)
    (root : String) (transform : Option (Img → Img)) : CustomDatasetWithoutLabels Img :=
  ⟨root, transform, listdir root⟩

/-- Embeds `CustomDatasetWithoutLabels.__getitem__`: opens `root / images[index]`
(converted to RGB, both folded into `openRGB`), applies the transform when one
is present, and pairs the result with the dummy label `-1`. -/
def CustomDatasetWithoutLabels.getitem {Img : Type} (openRGB : String → Img)
    (d : CustomDatasetWithoutLabels Img) (index : Nat)
    (h : index < d.images.length) : Img × Int :=
  let path := d.root ++ "/" ++ d.images.get ⟨index, h⟩
  let x := openRGB path
  let x2 :=
    match d.transform with
    | some t => t x
    | none => x
  (x2, -1)

/-- Embeds `CustomDatasetWithoutLabels.__len__`. -/
def CustomDatasetWithoutLabels.len {Img : Type} (d : CustomDatasetWithoutLabels Img) :
    Nat :=
  d.images.length

/-- Erased identities of the image pipeline steps, in source order. -/
def imageStepTags : List StepTag :=
  [ .randomResizedCropRGBImageDecoder, .randomApplyColorJitter, .randomGrayscale,
    .randomApplyGaussianBlur, .randomApplySolarization, .randomHorizontalFlip,
    .toTensor, .toDevice, .toTorchImage, .normalizeImage ]

/-- Erased identities of the label pipeline steps, in source order. -/
def labelStepTags : List StepTag :=
  [ .intDecoder, .toTensor, .squeeze, .toDevice ]

/-- A concrete transform over naturals used to instantiate witnesses: the
state is a counter, each application adds it to the image and bumps it. -/
def sampleTransform : Transform Nat Nat Nat := fun x s => (x + s, s + 1)

/-- Concrete keyword arguments used to instantiate witnesses. -/
def sampleArgs : ImagenetPipelinesArgs :=
  ⟨4/10, 4/10, 2/10, 1/10, 8/10, 2/10, 1/2, 1/2, 0, 8/100, 1, 224, 0⟩

/-- A one-file directory listing used to instantiate witnesses. -/
def sampleListdir : String → List String := fun _ => [("a.png")]

theorem applyN_length {Img Out RNG : Type} (t : Transform Img Out RNG) (n : Nat)
    (x : Img) (s : RNG) : (applyN t n x s).1.length = n := by
  induction n generalizing s with
  | zero => rfl
  | succ n ih => simp [applyN, ih]

theorem chainState_shift {Img Out RNG : Type} (t : Transform Img Out RNG) (x : Img)
    (s : RNG) (i : Nat) :
    chainState t x s (i + 1) = chainState t x (t x s).2 i := by
  induction i with
  | zero => rfl
  | succ i ih =>
    show (t x (chainState t x s (i + 1))).2 = _
    rw [ih]
    rfl

theorem applyN_getElem {Img Out RNG : Type} (t : Transform Img Out RNG) (n : Nat)
    (x : Img) (s : RNG) (i : Nat) (h : i < n) :
    (applyN t n x s).1[i]? = some (t x (chainState t x s i)).1 := by
  induction n generalizing s i with
  | zero => exact absurd h (Nat.not_lt_zero i)
  | succ n ih =>
    cases i with
    | zero => simp [applyN, chainState]
    | succ i =>
      have hrec := ih (t x s).2 i (Nat.lt_of_succ_lt_succ h)
      rw [chainState_shift]
      simpa [applyN] using hrec

theorem callList_map_ncrop {Img Out RNG : Type}
    (ps : List (Transform Img Out RNG × Nat)) (x : Img) (s : RNG) :
    callList (ps.map (fun p => (NCropAugmentation.mk p.1 p.2).call)) x s =
      concatNCropOutputs ps x s := by
  induction ps generalizing s with
  | nil => rfl
  | cons p ps ih => simp [callList, concatNCropOutputs, ih]

theorem concatNCropOutputs_length {Img Out RNG : Type}
    (ps : List (Transform Img Out RNG × Nat)) (x : Img) (s : RNG) :
    (concatNCropOutputs ps x s).1.length = (ps.map Prod.snd).sum := by
  induction ps generalizing s with
  | nil => rfl
  | cons p ps ih =>
    simp [concatNCropOutputs, NCropAugmentation.call, applyN_length, ih]

theorem zip_map_snd_of_length_eq {A : Type} (T : List A) (N : List Nat)
    (h : T.length = N.length) : (T.zip N).map Prod.snd = N := by
  induction T generalizing N with
  | nil =>
    cases N with
    | nil => rfl
    | cons n N => exact absurd h (by simp)
  | cons t T ih =>
    cases N with
    | nil => exact absurd h (by simp)
    | cons n N =>
      simp only [List.zip_cons_cons, List.map_cons]
      rw [ih N (by simpa using h)]

/-- C2: for every transform `t`, crop count `n` and image `x` (and every
initial random state `s`), `NCropAugmentation(t, n)(x)` returns a list of
exactly `n` elements, the `i`-th being the output of the `i`-th successive
independent application of `t` to the same source image `x`. -/
theorem NCropAugmentation_call_spec {Img Out RNG : Type} (t : Transform Img Out RNG)
    (n : Nat) (x : Img) (s : RNG) :
    ((NCropAugmentation.mk t n).call x s).1.length = n ∧
    ∀ i, i < n → ((NCropAugmentation.mk t n).call x s).1[i]? =
      some (t x (chainState t x s i)).1 := by
  refine ⟨applyN_length t n x s, fun i hi => applyN_getElem t n x s i hi⟩

/-- Witness for C2 at `t = sampleTransform`, `n = 3`, `x = 5`, `s = 0`. -/
theorem NCropAugmentation_call_spec_witness :
    ((NCropAugmentation.mk sampleTransform 3).call 5 0).1.length = 3 ∧
    ((NCropAugmentation.mk sampleTransform 3).call 5 0).1[1]? =
      some (sampleTransform 5 (chainState sampleTransform 5 0 1)).1 :=
  ⟨(NCropAugmentation_call_spec sampleTransform 3 5 0).1,
   (NCropAugmentation_call_spec sampleTransform 3 5 0).2 1 (by decide)⟩

/-- C1: for equal-length lists `T` of transforms and `N` of crop counts,
`prepare_n_crop_transform(T, N)` succeeds and the returned pipeline, applied to
any image `x` (from any random state `s`), returns the concatenation, in order,
of the outputs of `NCropAugmentation(T[i], N[i])(x)`, hence a list of exactly
`sum(N)` elements. -/
theorem prepare_n_crop_transform_spec {Img Out RNG : Type}
    (T : List (Transform Img Out RNG)) (N : List Nat) (h : T.length = N.length)
    (x : Img) (s : RNG) :
    ∃ P, prepare_n_crop_transform T N = some P ∧
      P.call x s = concatNCropOutputs (T.zip N) x s ∧
      (P.call x s).1.length = N.sum := by
  refine ⟨⟨(T.zip N).map (fun p => (NCropAugmentation.mk p.1 p.2).call)⟩, ?_, ?_, ?_⟩
  · simp [prepare_n_crop_transform, h]
  · exact callList_map_ncrop (T.zip N) x s
  · show (callList ((T.zip N).map (fun p => (NCropAugmentation.mk p.1 p.2).call)) x s).1.length = N.sum
    rw [callList_map_ncrop, concatNCropOutputs_length, zip_map_snd_of_length_eq T N h]

/-- Witness for C1 at `T = [sampleTransform]`, `N = [2]`, `x = 5`, `s = 0`. -/
theorem prepare_n_crop_transform_spec_witness :
    ∃ P, prepare_n_crop_transform ([sampleTransform]) ([2]) = some P ∧
      P.call 5 0 = concatNCropOutputs (([sampleTransform]).zip ([2])) 5 0 ∧
      (P.call 5 0).1.length = ([2] : List Nat).sum :=
  prepare_n_crop_transform_spec ([sampleTransform]) ([2]) rfl 5 0

/-- C3: `prepare_transform(d, **kwargs)` raises `ValueError` exactly when `d`
is neither `"imagenet"` nor `"imagenet100"`; for those two names it returns
`imagenet_pipelines(**kwargs)` without error, and it performs no other
validation of the keyword arguments. -/
theorem prepare_transform_spec (dataset : String) (kwargs : ImagenetPipelinesArgs) :
    ((∃ e, prepare_transform dataset kwargs = Except.error e) ↔
      dataset ∉ (["imagenet", "imagenet100"] : List String)) ∧
    (dataset ∈ (["imagenet", "imagenet100"] : List String) →
      prepare_transform dataset kwargs = Except.ok (imagenet_pipelines kwargs)) := by
  by_cases hd : dataset ∈ (["imagenet", "imagenet100"] : List String) <;>
    simp [prepare_transform, hd]

/-- Witness for C3 at `dataset = "imagenet"`, `kwargs = sampleArgs`. -/
theorem prepare_transform_spec_witness :
    prepare_transform ("imagenet") sampleArgs = Except.ok (imagenet_pipelines sampleArgs) :=
  (prepare_transform_spec ("imagenet") sampleArgs).2 (by decide)

/-- C4: `prepare_n_crop_transform(transforms, num_crops_per_aug)` fails its
assertion exactly when the two lists have different lengths; with equal lengths
the call always succeeds. -/
theorem prepare_n_crop_transform_assert {Img Out RNG : Type}
    (transforms : List (Transform Img Out RNG)) (num_crops_per_aug : List Nat) :
    prepare_n_crop_transform transforms num_crops_per_aug = none ↔
      transforms.length ≠ num_crops_per_aug.length := by
  unfold prepare_n_crop_transform
  by_cases h : transforms.length = num_crops_per_aug.length <;> simp [h]

/-- C5: `imagenet_pipelines` always returns a dict with exactly the keys
`"image"` and `"label"`; the image pipeline is a fixed ordered list of 10 steps
from `RandomResizedCropRGBImageDecoder` to `NormalizeImage`, the label pipeline
is the fixed list `[IntDecoder, ToTensor, Squeeze, ToDevice]`, and the
parameters never change the identity, number or order of the steps. -/
theorem imagenet_pipelines_structure (a : ImagenetPipelinesArgs) :
    (imagenet_pipelines a).map Prod.fst = ["image", "label"] ∧
    ∃ img lbl, imagenet_pipelines a = [("image", img), ("label", lbl)] ∧
      img.map PipelineStep.tag = imageStepTags ∧
      img.length = 10 ∧
      (img.map PipelineStep.tag).head? = some StepTag.randomResizedCropRGBImageDecoder ∧
      (img.map PipelineStep.tag).getLast? = some StepTag.normalizeImage ∧
      lbl.map PipelineStep.tag = labelStepTags :=
  ⟨rfl, _, _, rfl, rfl, rfl, rfl, rfl, rfl⟩

/-- C6: `prepare_dataloader` forwards the dataset path, batch size, number of
workers, pipelines dict, distributed flag, and `fit_mem` (as `os_cache`)
unchanged to the `Loader` constructor. -/
theorem prepare_dataloader_forwards {P : Type} (train_ffcv_dataset : String)
    (pipelines : P) (batch_size num_workers : Nat) (distributed fit_mem : Bool) :
    (prepare_dataloader train_ffcv_dataset pipelines batch_size num_workers
        distributed fit_mem).fname = train_ffcv_dataset ∧
    (prepare_dataloader train_ffcv_dataset pipelines batch_size num_workers
        distributed fit_mem).batch_size = batch_size ∧
    (prepare_dataloader train_ffcv_dataset pipelines batch_size num_workers
        distributed fit_mem).num_workers = num_workers ∧
    (prepare_dataloader train_ffcv_dataset pipelines batch_size num_workers
        distributed fit_mem).pipelines = pipelines ∧
    (prepare_dataloader train_ffcv_dataset pipelines batch_size num_workers
        distributed fit_mem).distributed = distributed ∧
    (prepare_dataloader train_ffcv_dataset pipelines batch_size num_workers
        distributed fit_mem).os_cache = fit_mem :=
  ⟨rfl, rfl, rfl, rfl, rfl, rfl⟩

/-- C9: `prepare_dataloader` always sets `drop_last = True`, and picks
`OrderOption.RANDOM` exactly when `distributed` is true and
`OrderOption.QUASI_RANDOM` otherwise. -/
theorem prepare_dataloader_order {P : Type} (train_ffcv_dataset : String)
    (pipelines : P) (batch_size num_workers : Nat) (distributed fit_mem : Bool) :
    (prepare_dataloader train_ffcv_dataset pipelines batch_size num_workers
        distributed fit_mem).drop_last = true ∧
    ((prepare_dataloader train_ffcv_dataset pipelines batch_size num_workers
        distributed fit_mem).order = OrderOption.RANDOM ↔ distributed = true) ∧
    ((prepare_dataloader train_ffcv_dataset pipelines batch_size num_workers
        distributed fit_mem).order = OrderOption.QUASI_RANDOM ↔ distributed = false) := by
  cases distributed <;> simp [prepare_dataloader]

/-- C7: the class returned by `dataset_with_index` has
`__getitem__(i) = (i, *D.__getitem__(i))`: the index is prepended and every
component of the underlying item is passed through unchanged and in order. -/
theorem dataset_with_index_getitem_spec {V : Type} (getitem : Nat → List V)
    (inj : Nat → V) (index : Nat) :
    (dataset_with_index_getitem getitem inj index).length = (getitem index).length + 1 ∧
    (dataset_with_index_getitem getitem inj index)[0]? = some (inj index) ∧
    ∀ j, (dataset_with_index_getitem getitem inj index)[j + 1]? = (getitem index)[j]? :=
  ⟨by simp [dataset_with_index_getitem],
   by simp [dataset_with_index_getitem],
   fun j => by simp [dataset_with_index_getitem]⟩

/-- C8: `CustomDatasetWithoutLabels.__getitem__(i)` always returns a pair whose
second component is the dummy label `-1`, and `__len__` equals the number of
directory entries listed under `root` at construction time. -/
theorem CustomDatasetWithoutLabels_spec {Img : Type} (listdir : String → List String)
    (root : String) (transform : Option (Img → Img)) (openRGB : String → Img)
    (index : Nat)
    (h : index < (CustomDatasetWithoutLabels.init listdir root transform : CustomDatasetWithoutLabels Img).images.length) :
    ((CustomDatasetWithoutLabels.init listdir root transform).getitem openRGB index h).2 = -1 ∧
    (CustomDatasetWithoutLabels.init listdir root transform : CustomDatasetWithoutLabels Img).len =
      (listdir root).length :=
  ⟨rfl, rfl⟩

/-- Witness for C8 at a one-file listing, `root = "d"`, no transform, index 0. -/
theorem CustomDatasetWithoutLabels_spec_witness :
    ((CustomDatasetWithoutLabels.init sampleListdir ("d") (none : Option (Nat → Nat))).getitem
        (fun _ => 0) 0 (by decide)).2 = -1 ∧
    (CustomDatasetWithoutLabels.init sampleListdir ("d") (none : Option (Nat → Nat))).len =
      (sampleListdir ("d")).length :=
  CustomDatasetWithoutLabels_spec sampleListdir ("d") none (fun _ => 0) 0 (by decide)
